import Mathlib

set_option maxHeartbeats 1000000
set_option maxRecDepth 8192

/-!
Verification development for the session-isolated execution runtime of the
xian playground repository.  The definitions below are shallow embeddings of
the Python sources under src/playground: the session repository and metadata
store (services/sessions.py), the runtime manager (services/runtime.py), and
the isolated worker with its transport (services/worker.py).  Impure inputs
of the original code (the clock, the uuid generator, the duplex channel) are
passed explicitly as arguments.
-/

namespace Playground

/-- Primitive Python values that occur in session metadata dictionaries
(strings, booleans, integers and None). -/
inductive PyVal where
  | pstr (s : String)
  | pbool (b : Bool)
  | pint (i : Int)
  | pnone
deriving DecidableEq, Repr

/-- First-match lookup in an association list.  Python dictionaries have
unique keys, so the first match is the only match. -/
def dictGet {A : Type} (d : List (String × A)) (k : String) : Option A :=
  match d with
  | [] => none
  | (k2, v) :: rest => if k2 = k then some v else dictGet rest k

/-- Python `d.get(k, default)`. -/
def pyGet (d : List (String × PyVal)) (k : String) (dflt : PyVal) : PyVal :=
  match dictGet d k with
  | some v => v
  | none => dflt

/-- Default contract source shipped with the UI (src/playground/defaults.py,
`DEFAULT_CONTRACT`).  Apostrophes and braces are written as escapes. -/
def DEFAULT_CONTRACT : String :=
  "balances = Hash(default_value=0)\n\n\n@construct\ndef seed():\n    balances[\x27treasury\x27] = 1_000\n\n\n@export\ndef transfer(to: str, amount: int):\n    assert amount > 0, \x27Amount must be positive.\x27\n    assert balances[ctx.caller] >= amount, \x27Insufficient balance.\x27\n\n    balances[ctx.caller] -= amount\n    balances[to] += amount\n\n\n@export\ndef balance_of(account: str):\n    return balances[account]\n"

/-- src/playground/defaults.py, `DEFAULT_CONTRACT_NAME`. -/
def DEFAULT_CONTRACT_NAME : String := "con_demo_token"

/-- src/playground/defaults.py, `DEFAULT_KWARGS_INPUT` (the literal two-brace
empty JSON object). -/
def DEFAULT_KWARGS_INPUT : String := "\x7b\x7d"

/-- src/playground/services/contracting.py, `DEFAULT_SIGNER`. -/
def DEFAULT_SIGNER : String := "demo"

/-- src/playground/services/contracting.py, `DEFAULT_ENVIRONMENT`. -/
def DEFAULT_ENVIRONMENT : List (String × PyVal) :=
  [("signer", PyVal.pstr DEFAULT_SIGNER),
   ("now", PyVal.pstr "2024-02-01T12:30:00"),
   ("block_num", PyVal.pstr "100"),
   ("block_hash", PyVal.pstr "0xabc...")]

/-- src/playground/services/sessions.py, `SESSION_UI_FIELDS`: the allow-list
of recognized ui_state keys. -/
def SESSION_UI_FIELDS : List String :=
  ["code_editor",
   "contract_name",
   "kwargs_input",
   "load_view_decompiled",
   "expanded_panel",
   "selected_contract",
   "load_selected_contract",
   "function_name",
   "show_internal_state"]

/-- src/playground/services/sessions.py, `DEFAULT_UI_STATE`. -/
def DEFAULT_UI_STATE : List (String × PyVal) :=
  [("code_editor", PyVal.pstr DEFAULT_CONTRACT),
   ("contract_name", PyVal.pstr DEFAULT_CONTRACT_NAME),
   ("kwargs_input", PyVal.pstr DEFAULT_KWARGS_INPUT),
   ("load_view_decompiled", PyVal.pbool true),
   ("expanded_panel", PyVal.pstr ""),
   ("selected_contract", PyVal.pstr ""),
   ("load_selected_contract", PyVal.pstr ""),
   ("function_name", PyVal.pstr ""),
   ("show_internal_state", PyVal.pbool false)]

/-- ASCII whitespace as stripped by Python `str.strip()` and `int()`:
space, tab, newline, vertical tab, form feed, carriage return. -/
def isPyWs (c : Char) : Bool := c.toNat = 32 || (9 <= c.toNat && c.toNat <= 13)

/-- Remove characters satisfying `p` from both ends of a list. -/
def stripEnds (p : Char → Bool) (cs : List Char) : List Char :=
  ((cs.dropWhile p).reverse.dropWhile p).reverse

/-- ASCII lowercasing of one character, as Python `str.lower()` does for
ASCII input. -/
def pyLowerChar (c : Char) : Char :=
  if 65 <= c.toNat && c.toNat <= 90 then Char.ofNat (c.toNat + 32) else c

/-- Model of `SessionRepository._normalize_session_id`: `None` and the empty
string normalize to nothing, otherwise the identifier is stripped and
lowercased, and an all-whitespace identifier also normalizes to nothing. -/
def normalize_session_id : Option String → Option String
  | none => none
  | some s =>
      if s = "" then none
      else
        let t := String.mk ((stripEnds isPyWs s.toList).map pyLowerChar)
        if t = "" then none else some t

/-- Hexadecimal digit accepted by Python `int(s, 16)`: 0-9, a-f, A-F. -/
def isHexDigit (c : Char) : Bool :=
  (48 <= c.toNat && c.toNat <= 57) ||
    (97 <= c.toNat && c.toNat <= 102) ||
    (65 <= c.toNat && c.toNat <= 70)

/-- Numeric value of a hexadecimal digit. -/
def hexVal (c : Char) : Nat :=
  if 48 <= c.toNat ∧ c.toNat <= 57 then c.toNat - 48
  else if 97 <= c.toNat ∧ c.toNat <= 102 then c.toNat - 87
  else c.toNat - 55

/-- Tail of a base-16 Python integer literal: hexadecimal digits where a
single underscore may separate two digits (an underscore must be followed by
a digit, so it can be neither trailing nor doubled). -/
def hexDigitsRest : List Char → Nat → Option Nat
  | [], acc => some acc
  | c :: rest, acc =>
      if c = '_' then
        match rest with
        | [] => none
        | c2 :: rest2 =>
            if isHexDigit c2 then hexDigitsRest rest2 (acc * 16 + hexVal c2) else none
      else if isHexDigit c then hexDigitsRest rest (acc * 16 + hexVal c) else none

/-- Digit run of a base-16 Python integer literal: it must begin with a
hexadecimal digit. -/
def hexDigitsStart : List Char → Option Nat
  | [] => none
  | c :: rest => if isHexDigit c then hexDigitsRest rest (hexVal c) else none

/-- Magnitude of Python `int(s, 16)`: an optional `0x`/`0X` base marker (one
underscore is allowed right after it), then hexadecimal digits. -/
def pyHexMagnitude (cs : List Char) : Option Nat :=
  match cs with
  | c :: x :: rest =>
      if c = '0' && (x = 'x' || x = 'X') then
        match rest with
        | '_' :: rest2 => hexDigitsStart rest2
        | _ => hexDigitsStart rest
      else hexDigitsStart cs
  | _ => hexDigitsStart cs

/-- Python `int(s, 16)`: surrounding whitespace is ignored, an optional sign
precedes the magnitude. -/
def pyIntBase16 (s : List Char) : Option Int :=
  match stripEnds isPyWs s with
  | [] => none
  | c :: rest =>
      if c = '+' then (pyHexMagnitude rest).map (fun n => (n : Int))
      else if c = '-' then (pyHexMagnitude rest).map (fun n => -(n : Int))
      else (pyHexMagnitude (c :: rest)).map (fun n => (n : Int))

/-- Does the second list start with the first one? -/
def listStartsWith : List Char → List Char → Bool
  | [], _ => true
  | _ :: _, [] => false
  | p :: ps, c :: cs => p = c && listStartsWith ps cs

/-- Fuel-indexed worker for `removeOcc`; the fuel tracks the length of the
scanned list so the recursion is structural. -/
def removeOccFuel (pat : List Char) : Nat → List Char → List Char
  | 0, l => l
  | _, [] => []
  | fuel + 1, c :: rest =>
      if !pat.isEmpty && listStartsWith pat (c :: rest) then
        removeOccFuel pat fuel (rest.drop (pat.length - 1))
      else c :: removeOccFuel pat fuel rest

/-- Python `str.replace(pat, "")` for a nonempty pattern: remove
non-overlapping occurrences scanning left to right. -/
def removeOcc (pat : List Char) (l : List Char) : List Char :=
  removeOccFuel pat l.length l

/-- Is the character an ASCII curly brace? -/
def isBraceChar (c : Char) : Bool := c.toNat = 123 || c.toNat = 125

/-- The preprocessing `uuid.UUID(hex=s, ...)` applies before converting: the
stdlib removes `urn:` and `uuid:` markers, strips curly braces from the
ends, and removes dashes. -/
def uuidHexNormalized (s : String) : List Char :=
  removeOcc ("-".toList)
    (stripEnds isBraceChar
      (removeOcc ("uuid:".toList) (removeOcc ("urn:".toList) s.toList)))

/-- Model of Python `uuid.UUID(hex=s, version=4)` succeeding: after the
preprocessing it requires exactly 32 remaining characters, converts them
with `int(s, 16)`, checks the 128-bit range, and — because an explicit
version is given — coerces the version and variant bits instead of
validating them. -/
def uuidHexAccepted (s : String) : Bool :=
  let h := uuidHexNormalized s
  if h.length ≠ 32 then false
  else
    match pyIntBase16 h with
    | none => false
    | some v => decide (0 <= v ∧ v < 2 ^ 128)

/-- Model of `SessionRepository.is_valid_session_id`: normalize, require 32
characters, then require `uuid.UUID(hex=..., version=4)` to succeed. -/
def is_valid_session_id (s : Option String) : Bool :=
  match normalize_session_id s with
  | none => false
  | some t => if t.length ≠ 32 then false else uuidHexAccepted t

/-- Durable per-session metadata (`SessionMetadata` in
src/playground/services/sessions.py).  Timestamps are the ISO strings
produced by `_utcnow`. -/
structure SessionMetadata where
  session_id : String
  created_at : String
  updated_at : String
  environment : List (String × PyVal)
  ui_state : List (String × PyVal)
deriving DecidableEq, Repr

/-- `SessionMetadata.new`: both timestamps are the current time, the
environment starts as a copy of `DEFAULT_ENVIRONMENT` and the ui state as a
copy of `DEFAULT_UI_STATE`. -/
def SessionMetadata.new (session_id now : String) : SessionMetadata :=
  { session_id := session_id, created_at := now, updated_at := now,
    environment := DEFAULT_ENVIRONMENT, ui_state := DEFAULT_UI_STATE }

/-- On-disk state of one session directory under the repository root: the
optional metadata file `session.json` and the two storage sub-directories. -/
structure SessionDirState where
  meta : Option SessionMetadata
  contract_state : Bool
  run_state : Bool
deriving DecidableEq, Repr

/-- Filesystem contents of the repository root: the session directories in
creation order, keyed by directory name. -/
structure RepoState where
  dirs : List (String × SessionDirState)
deriving DecidableEq, Repr

/-- Does the session directory exist (`self._session_dir(id).exists()`)? -/
def dirExists (st : RepoState) (id : String) : Bool := (dictGet st.dirs id).isSome

/-- `SessionRepository.storage_home`: create the session directory (if
needed) together with its `contract_state` and `run_state` sub-directories. -/
def storage_home (st : RepoState) (id : String) : RepoState :=
  if dirExists st id then
    { dirs := st.dirs.map (fun kv =>
        if kv.1 = id then
          (kv.1, { kv.2 with contract_state := true, run_state := true })
        else kv) }
  else
    { dirs := st.dirs ++ [(id, { meta := none, contract_state := true, run_state := true })] }

/-- `SessionRepository.session_exists`: normalize, then check that the
metadata file exists. -/
def session_exists (st : RepoState) (sid : Option String) : Bool :=
  match normalize_session_id sid with
  | none => false
  | some id =>
      match dictGet st.dirs id with
      | some d => d.meta.isSome
      | none => false

/-- `SessionRepository._write_metadata`: atomically write the metadata file
into the session directory, creating the directory if needed. -/
def write_metadata (st : RepoState) (md : SessionMetadata) : RepoState :=
  if dirExists st md.session_id then
    { dirs := st.dirs.map (fun kv =>
        if kv.1 = md.session_id then (kv.1, { kv.2 with meta := some md }) else kv) }
  else
    { dirs := st.dirs ++ [(md.session_id, { meta := some md, contract_state := false, run_state := false })] }

/-- `SessionRepository.create_session`: draw candidate identifiers from the
`uuid4().hex` stream, skip any whose directory already exists, then make the
directory, persist `SessionMetadata.new`, and create the storage layout.
The candidate stream is passed explicitly; `none` means it was exhausted
(the Python loop would keep drawing forever). -/
def create_session (st : RepoState) (now : String) :
    List String → Option (SessionMetadata × RepoState)
  | [] => none
  | id :: rest =>
      if dirExists st id then create_session st now rest
      else
        let st1 : RepoState :=
          { dirs := st.dirs ++ [(id, { meta := none, contract_state := false, run_state := false })] }
        let md := SessionMetadata.new id now
        let st2 := write_metadata st1 md
        let st3 := storage_home st2 id
        some (md, st3)

/-- `SessionRepository.load_metadata`: normalize (raising `SessionNotFound`,
modelled as `none`, for missing or empty identifiers), require the metadata
file, deserialize it, and self-heal the storage sub-directories keyed by the
session id recorded in the file. -/
def load_metadata (st : RepoState) (sid : Option String) :
    Option (SessionMetadata × RepoState) :=
  match normalize_session_id sid with
  | none => none
  | some nid =>
      match dictGet st.dirs nid with
      | none => none
      | some d =>
          match d.meta with
          | none => none
          | some md => some (md, storage_home st md.session_id)

/-- The allow-list filter applied by `SessionRepository.update_metadata` to a
supplied ui state: one entry per recognized key, taking the supplied value
when present and the default otherwise. -/
def filtered_ui_state (ui : List (String × PyVal)) : List (String × PyVal) :=
  SESSION_UI_FIELDS.map (fun key => (key, pyGet ui key (pyGet DEFAULT_UI_STATE key PyVal.pnone)))

/-- `SessionRepository.update_metadata`: load, merge only the supplied
fields (filtering a supplied ui state through the allow-list), bump
`updated_at` and write; with no supplied fields it only touches the session
(bumping the stored `updated_at`) and returns the previously loaded
metadata. -/
def update_metadata (st : RepoState) (sid : Option String)
    (environment : Option (List (String × PyVal)))
    (ui_state : Option (List (String × PyVal))) (now : String) :
    Option (SessionMetadata × RepoState) :=
  match load_metadata st sid with
  | none => none
  | some (md0, st1) =>
      let md1 := match environment with
        | some e => { md0 with environment := e }
        | none => md0
      let md2 := match ui_state with
        | some u => { md1 with ui_state := filtered_ui_state u }
        | none => md1
      if environment.isSome || ui_state.isSome then
        let md3 := { md2 with updated_at := now }
        some (md3, write_metadata st1 md3)
      else
        some (md0, write_metadata st1 { md0 with updated_at := now })

/-- Python truthiness of an optional string (`if session_id and ...`). -/
def pyTruthyStr : Option String → Bool
  | none => false
  | some s => s ≠ ""

/-- `SessionRuntimeManager.resolve_or_create`: for a truthy, syntactically
valid identifier try to load it (swallowing `SessionNotFound`); in every
other case create a brand-new session and report `created = true`. -/
def resolve_or_create (st : RepoState) (now : String) (freshIds : List String)
    (session_id : Option String) : Option (SessionMetadata × Bool × RepoState) :=
  let loaded :=
    if pyTruthyStr session_id && is_valid_session_id session_id then
      load_metadata st session_id
    else none
  match loaded with
  | some (md, st2) => some (md, false, st2)
  | none => (create_session st now freshIds).map (fun r => (r.1, true, r.2))

/-- The methods defined on `ContractingService`
(src/playground/services/contracting.py); `getattr(service, command)` in the
worker loop succeeds exactly for these names (besides inherited object
dunders, which never collide with RPC command names here). -/
def contractingServiceMethods : List String :=
  ["_create_client",
   "get_signer",
   "set_signer",
   "get_environment",
   "set_environment_var",
   "remove_environment_var",
   "_prune_environment",
   "_apply_default_environment",
   "_coerce_environment_value",
   "deploy",
   "apply_state_snapshot",
   "list_contracts",
   "list_functions",
   "get_contract_details",
   "call",
   "dump_state",
   "_parse_exports"]

/-- The minimum command set the specification requires of the session
service, written as the command names the runtime manager actually forwards
(src/playground/services/runtime.py).  This list follows the wording of the
spec, to be compared with `contractingServiceMethods` from the source. -/
def requiredSpecCommands : List String :=
  ["deploy",
   "list_contracts",
   "get_export_metadata",
   "call",
   "dump_state",
   "apply_state_snapshot",
   "remove_contract",
   "reset_state",
   "get_environment",
   "set_environment_var",
   "remove_environment_var",
   "snapshot_environment"]

/-- A message received by the worker loop: either not a 3-tuple at all, or a
`(command, args, kwargs)` request. -/
inductive WireMsg where
  | malformed
  | rpc (command : String) (args : List PyVal) (kwargs : List (String × PyVal))
deriving DecidableEq, Repr

/-- The error payload sent back over the channel: the structured exception
dictionary, a legacy `(type, message)` 2-tuple, or anything else. -/
inductive RawPayload where
  | pdict (entries : List (String × String))
  | ptuple2 (first second : String)
  | other (text : String)
deriving DecidableEq, Repr

/-- A response sent back over the channel: `("ok", payload)` or
`("error", payload)`. -/
inductive WireResp where
  | ok (value : Option PyVal)
  | err (payload : RawPayload)
deriving DecidableEq, Repr

/-- Behaviour of the session service methods inside the worker (the opaque
contracting engine): a result or a serialized exception dictionary. -/
def ServiceBehavior : Type :=
  String → List PyVal → List (String × PyVal) → Except (List (String × String)) PyVal

/-- Python `repr` of a simple command string (no escaping needed for the
command names that occur here). -/
def pyRepr (s : String) : String :=
  String.mk (Char.ofNat 39 :: s.toList ++ [Char.ofNat 39])

/-- One iteration of the worker receive loop (`ContractingWorker.run`):
the response sent, and whether the loop exits afterwards. -/
def workerStep (behavior : ServiceBehavior) (msg : WireMsg) : WireResp × Bool :=
  match msg with
  | .malformed => (.err (.ptuple2 "ContractingWorker" "invalid message"), false)
  | .rpc command args kwargs =>
      if command = "__shutdown__" then (.ok none, true)
      else if contractingServiceMethods.contains command then
        match behavior command args kwargs with
        | .ok v => (.ok (some v), false)
        | .error e => (.err (.pdict e), false)
      else
        (.err (.ptuple2 "AttributeError" ("Unknown command " ++ pyRepr command)), false)

/-- The whole worker receive loop over a finite incoming message stream (the
stream ending models `EOFError` on the channel): all responses sent, and
whether the loop exited through the shutdown command. -/
def workerLoop (behavior : ServiceBehavior) : List WireMsg → List WireResp × Bool
  | [] => ([], false)
  | m :: rest =>
      match workerStep behavior m with
      | (r, true) => ([r], true)
      | (r, false) =>
          let t := workerLoop behavior rest
          (r :: t.1, t.2)

/-- Structured snapshot of an exception raised inside the worker process
(`RemoteExceptionPayload` in src/playground/services/worker.py). -/
structure RemoteExceptionPayload where
  type_name : String
  module : String
  message : String
  traceback_text : String
deriving DecidableEq, Repr

/-- Python `d.get(k, default)` over a string-valued payload dictionary. -/
def pyGetStr (d : List (String × String)) (k dflt : String) : String :=
  match dictGet d k with
  | some v => v
  | none => dflt

/-- `RemoteExceptionPayload.from_raw`: accept the structured dictionary, the
legacy 2-tuple, and any other payload defensively. -/
def RemoteExceptionPayload.from_raw : RawPayload → RemoteExceptionPayload
  | .pdict d =>
      { type_name := pyGetStr d "exc_type" "Exception",
        module := pyGetStr d "exc_module" "",
        message := pyGetStr d "message" "",
        traceback_text := pyGetStr d "traceback" "" }
  | .ptuple2 t m =>
      { type_name := t, module := "", message := m, traceback_text := "" }
  | .other s =>
      { type_name := "Exception", module := "", message := s, traceback_text := "" }

/-- `ContractWorkerInvocationError`: the typed error the owning process
raises when the worker reports an exception. -/
structure ContractWorkerInvocationError where
  command : String
  remote_type : String
  remote_module : String
  remote_message : String
  remote_traceback : String
deriving DecidableEq, Repr

/-- Constructor body of `ContractWorkerInvocationError`. -/
def mkInvocationError (command : String) (payload : RemoteExceptionPayload) :
    ContractWorkerInvocationError :=
  { command := command,
    remote_type := payload.type_name,
    remote_module := payload.module,
    remote_message := payload.message,
    remote_traceback := payload.traceback_text }

/-- `ContractWorkerInvocationError.pretty_remote_traceback`: the remote
traceback when nonempty, otherwise the synthesized `type: message` text
(Python `or` treats the empty string as falsy). -/
def ContractWorkerInvocationError.pretty_remote_traceback
    (e : ContractWorkerInvocationError) : String :=
  if e.remote_traceback = "" then e.remote_type ++ ": " ++ e.remote_message
  else e.remote_traceback

/-- Owner-side state of a `ContractingWorker`: the `_stopped` and `_dead`
flags, whether the call mutex was initialized by `start()`, whether each
channel endpoint is open and attached, whether the child process is alive,
whether `terminate()` was called, and the timeout of the last bounded
`join`. -/
structure WorkerConnState where
  stopped : Bool
  dead : Bool
  lock_init : Bool
  parent_conn : Bool
  child_conn : Bool
  alive : Bool
  terminated : Bool
  last_join_timeout : Option ℚ
deriving DecidableEq, Repr

/-- Behaviour of the duplex channel for one `invoke` call: a response that
becomes available after `delay` seconds, a broken channel (the peer died),
or a worker that never answers. -/
inductive ChanBehavior where
  | arrives (delay : ℚ) (resp : WireResp)
  | broken
  | silent
deriving DecidableEq, Repr

/-- How one `invoke` call returns to the caller. -/
inductive InvokeOutcome where
  | result (value : Option PyVal)
  | remoteError (e : ContractWorkerInvocationError)
  | workerTimeout (command : String) (timeout : ℚ)
  | unavailable
  | localError (message : String)
  | hangs
deriving DecidableEq, Repr

/-- `ContractingWorker._handle_timeout`: mark the worker dead, close and
detach both channel endpoints, and, when the process is still alive,
terminate it and join with a one-second bound; finally mark it stopped. -/
def handle_timeout (st : WorkerConnState) : WorkerConnState :=
  { st with
    dead := true,
    parent_conn := false,
    child_conn := false,
    alive := false,
    terminated := st.terminated || st.alive,
    last_join_timeout := if st.alive then some 1 else st.last_join_timeout,
    stopped := true }

/-- `ContractingWorker.invoke`: reject calls on a stopped worker or before
`start()`, send the request, then either poll within a positive configured
timeout (tearing the worker down and raising `WorkerTimeout` when nothing
arrives in time) or block until a response; a broken channel marks the
worker dead and raises the local unavailable error; an `error` status is
rethrown as a `ContractWorkerInvocationError` built by `from_raw`. -/
def invoke (st : WorkerConnState) (behavior : ChanBehavior) (command : String)
    (rpc_timeout : Option ℚ) : InvokeOutcome × WorkerConnState :=
  if st.stopped then (.localError "Contracting worker has been stopped.", st)
  else if !st.lock_init then (.localError "Worker lock not initialized.", st)
  else if !st.parent_conn then (.localError "Worker connection not initialized.", st)
  else
    let deliver : WireResp → InvokeOutcome × WorkerConnState := fun resp =>
      match resp with
      | .ok v => (.result v, st)
      | .err payload =>
          (.remoteError (mkInvocationError command (RemoteExceptionPayload.from_raw payload)), st)
    let blockRecv : InvokeOutcome × WorkerConnState :=
      match behavior with
      | .arrives _ resp => deliver resp
      | .silent => (.hangs, st)
      | .broken => (.unavailable, { st with dead := true })
    match rpc_timeout with
    | some t =>
        if 0 < t then
          match behavior with
          | .arrives delay resp =>
              if delay <= t then deliver resp
              else (.workerTimeout command t, handle_timeout st)
          | .silent => (.workerTimeout command t, handle_timeout st)
          | .broken => (.unavailable, { st with dead := true })
        else blockRecv
    | none => blockRecv

/-- Snapshot of one resident `SessionServiceEntry` as read by the trim loop:
session key, in-flight call count, last-used timestamp. -/
structure EntrySnap where
  session_id : String
  inflight : Nat
  last_used : ℚ
deriving DecidableEq, Repr

/-- Result of `_trim_workers_if_needed`: the entries still resident, the
evicted entries (in eviction order), and whether the capacity-exceeded
warning was logged. -/
structure TrimResult where
  kept : List EntrySnap
  victims : List EntrySnap
  logged : Bool
deriving DecidableEq, Repr

/-- Sort key used by the trim loop (`snapshots.sort(key=lambda item:
item[0])`): compare last-used timestamps only. -/
def entryLe (a b : EntrySnap) : Bool := a.last_used <= b.last_used

/-- Insert one entry into a timestamp-sorted list, before the first entry it
compares less-or-equal to (ties keep the earlier element first). -/
def sortInsert (a : EntrySnap) : List EntrySnap → List EntrySnap
  | [] => [a]
  | b :: l => if entryLe a b then a :: b :: l else b :: sortInsert a l

/-- Python `list.sort(key=...)` is a stable sort; a stable sort by one key
is extensionally unique, so it is embedded as a stable insertion sort by
`last_used`. -/
def sortByLastUsed : List EntrySnap → List EntrySnap
  | [] => []
  | a :: l => sortInsert a (sortByLastUsed l)

/-- `surplus = len(self._entries) - limit` in the trim loop. -/
def trim_surplus (entries : List EntrySnap) (limit : Int) : Int :=
  (entries.length : Int) - limit

/-- The idle snapshots collected by the trim loop, in table order: exactly
the entries whose inflight count is zero. -/
def trim_idle (entries : List EntrySnap) : List EntrySnap :=
  entries.filter (fun e => e.inflight == 0)

/-- The entries the trim loop evicts: the idle snapshots sorted stably by
`last_used`, taking the oldest ones until the surplus is gone. -/
def trim_victims (entries : List EntrySnap) (limit : Int) : List EntrySnap :=
  (sortByLastUsed (trim_idle entries)).take (trim_surplus entries limit).toNat

/-- `SessionRuntimeManager._trim_workers_if_needed`: with a positive limit
and a surplus, snapshot the idle entries (inflight zero) in table order,
sort them stably by last-used, evict the oldest ones until the surplus is
gone, and log a warning when the idle entries did not suffice. -/
def trim_workers (entries : List EntrySnap) (limit : Int) : TrimResult :=
  if limit <= 0 then { kept := entries, victims := [], logged := false }
  else if trim_surplus entries limit <= 0 then { kept := entries, victims := [], logged := false }
  else
    TrimResult.mk
      (entries.filter (fun e =>
        (trim_victims entries limit).all (fun v => v.session_id != e.session_id)))
      (trim_victims entries limit)
      (decide ((trim_idle entries).length < (trim_surplus entries limit).toNat))

/-- `_get_or_create_entry` followed by the trim: the freshly created entry is
inserted into the table unconditionally (dictionary insertion appends), and
only then is the resident-worker cap enforced. -/
def get_or_create_trim (existing : List EntrySnap) (newEntry : EntrySnap)
    (limit : Int) : TrimResult :=
  trim_workers (existing ++ [newEntry]) limit

/-! ## Helper lemmas about association-list lookups -/

lemma isSome_false_eq_none {A : Type} {o : Option A} (h : o.isSome = false) : o = none := by
  cases o with
  | none => rfl
  | some v => simp at h

lemma dictGet_cons {A : Type} (k2 : String) (v : A) (rest : List (String × A)) (k : String) :
    dictGet ((k2, v) :: rest) k = if k2 = k then some v else dictGet rest k := rfl

lemma dictGet_append_of_none {A : Type} {l1 : List (String × A)} (l2 : List (String × A))
    (k : String) (h : dictGet l1 k = none) : dictGet (l1 ++ l2) k = dictGet l2 k := by
  induction l1 with
  | nil => rfl
  | cons kv rest ih =>
      obtain ⟨k2, v⟩ := kv
      rw [dictGet_cons] at h
      by_cases hk : k2 = k
      · rw [if_pos hk] at h
        exact absurd h (by simp)
      · rw [if_neg hk] at h
        rw [List.cons_append, dictGet_cons, if_neg hk]
        exact ih h

lemma dictGet_singleton {A : Type} (k : String) (v : A) :
    dictGet [(k, v)] k = some v := by
  rw [dictGet_cons, if_pos rfl]

lemma dictGet_map_ite {A : Type} (l : List (String × A)) (k : String) (f : A → A) :
    dictGet (List.map (fun kv => if kv.1 = k then (kv.1, f kv.2) else kv) l) k
      = (dictGet l k).map f := by
  induction l with
  | nil => rfl
  | cons kv rest ih =>
      obtain ⟨k2, v⟩ := kv
      rw [List.map_cons]
      dsimp only
      by_cases hk : k2 = k
      · rw [if_pos hk, dictGet_cons, dictGet_cons, if_pos hk, if_pos hk]
        rfl
      · rw [if_neg hk, dictGet_cons, dictGet_cons, if_neg hk, if_neg hk, ih]

/-- Looking up the written session after `write_metadata` on an existing
directory: the metadata field is replaced, the rest is untouched. -/
lemma dictGet_write_metadata_self (st : RepoState) (md : SessionMetadata)
    (d : SessionDirState) (h : dictGet st.dirs md.session_id = some d) :
    dictGet (write_metadata st md).dirs md.session_id = some { d with meta := some md } := by
  rw [write_metadata, if_pos (by simp [dirExists, h])]
  dsimp only
  rw [dictGet_map_ite st.dirs md.session_id (fun d2 => { d2 with meta := some md }), h]
  rfl

/-- Looking up the session after `storage_home` on an existing directory:
the storage flags are set, the metadata is untouched. -/
lemma dictGet_storage_home_self (st : RepoState) (id : String)
    (d : SessionDirState) (h : dictGet st.dirs id = some d) :
    dictGet (storage_home st id).dirs id
      = some { d with contract_state := true, run_state := true } := by
  rw [storage_home, if_pos (by simp [dirExists, h])]
  dsimp only
  rw [dictGet_map_ite st.dirs id (fun d2 => { d2 with contract_state := true, run_state := true }), h]
  rfl

lemma dictGet_map_keys (ks : List String) (f : String → PyVal) (k : String) :
    dictGet (ks.map (fun key => (key, f key))) k
      = if k ∈ ks then some (f k) else none := by
  induction ks with
  | nil => simp [dictGet]
  | cons a rest ih =>
      by_cases ha : a = k
      · subst ha
        simp [dictGet]
      · have hka : ¬ k ∈ [a] := by simp [Ne.symm ha]
        simp [dictGet, ha, ih, List.mem_cons, Ne.symm ha]

/-! ## C1 -/

/-- Claim C1 (code bug): evaluating `resolve_or_create` at the failing inputs
used by the middleware and the unit test.  For a nil identifier, and likewise
for the syntactically invalid identifier `"not-a-session"`, the manager does
not raise `SessionNotFound`: it creates a brand-new session (`created = true`)
and the store session list grows from zero to one entry.  (The Python method
does not even accept the `create_if_missing` keyword its callers pass.) -/
theorem c1_resolve_or_create_autocreates_code_bug :
    (resolve_or_create { dirs := [] } "2024-01-01T00:00:00+00:00"
        ["0123456789abcdef0123456789abcdef"] none).map
        (fun r => (r.2.1, r.2.2.dirs.length)) = some (true, 1)
    ∧ (resolve_or_create { dirs := [] } "2024-01-01T00:00:00+00:00"
        ["0123456789abcdef0123456789abcdef"] (some "not-a-session")).map
        (fun r => (r.2.1, r.2.2.dirs.length)) = some (true, 1)
    ∧ is_valid_session_id none = false
    ∧ is_valid_session_id (some "not-a-session") = false := by
  refine ⟨by decide, by decide, by decide, by decide⟩

/-! ## C2 -/

/-- Claim C2 (code bug): of the minimum command set the specification
requires, exactly `get_export_metadata`, `remove_contract`, `reset_state` and
`snapshot_environment` name no operation on `ContractingService`, so
forwarding any of them — here `get_export_metadata`, with an arbitrary
healthy service behaviour — takes the unknown-command error branch of the
worker dispatch loop. -/
theorem c2_required_commands_missing_code_bug :
    requiredSpecCommands.filter (fun c => !(contractingServiceMethods.contains c))
      = ["get_export_metadata", "remove_contract", "reset_state", "snapshot_environment"]
    ∧ workerStep (fun _ _ _ => Except.ok PyVal.pnone) (.rpc "get_export_metadata" [] [])
      = (.err (.ptuple2 "AttributeError" ("Unknown command " ++ pyRepr "get_export_metadata")),
         false) := by
  refine ⟨by decide, by decide⟩

/-! ## C8 -/

/-- Claim C8 (confirmed): `from_raw` round-trips the structured payload into
an error whose `pretty_remote_traceback` is the recorded traceback; with the
traceback absent it synthesizes `type: message` text (here
`"ValueError: boom"`, and exactly `"Exception: boom"` when the type is also
absent); and a legacy `(type, message)` 2-tuple is accepted with that type
name and message. -/
theorem c8_remote_exception_payload_round_trip :
    (mkInvocationError "call"
        (RemoteExceptionPayload.from_raw
          (.pdict [("exc_type", "ValueError"), ("message", "boom"),
                   ("traceback", "trace")]))).pretty_remote_traceback = "trace"
    ∧ (mkInvocationError "call"
        (RemoteExceptionPayload.from_raw
          (.pdict [("exc_type", "ValueError"),
                   ("message", "boom")]))).pretty_remote_traceback = "ValueError: boom"
    ∧ (mkInvocationError "call"
        (RemoteExceptionPayload.from_raw
          (.pdict [("message", "boom")]))).pretty_remote_traceback = "Exception: boom"
    ∧ RemoteExceptionPayload.from_raw (.ptuple2 "ValueError" "boom")
      = { type_name := "ValueError", module := "", message := "boom", traceback_text := "" } := by
  refine ⟨by decide, by decide, by decide, by decide⟩

/-! ## C3 -/

/-- Claim C3 counterexample: the metadata persisted by `create_session` does
not carry an empty environment mapping — it is `DEFAULT_ENVIRONMENT`, which
is nonempty (signer, now, block_num, block_hash). -/
theorem c3_initial_environment_not_empty_counterexample :
    (create_session { dirs := [] } "2024-01-01T00:00:00+00:00"
        ["0123456789abcdef0123456789abcdef"]).map (fun r => r.1.environment)
      = some DEFAULT_ENVIRONMENT
    ∧ DEFAULT_ENVIRONMENT ≠ [] := by
  refine ⟨by decide, by decide⟩

/-- Claim C3 as amended (the initial environment is the default mapping, not
an empty one): `create_session` returns a collision-checked identifier drawn
from the uuid stream whose directory did not previously exist, persists
initial metadata with `DEFAULT_ENVIRONMENT` and the default ui_state and
both timestamps equal to the creation time, and immediately afterwards the
session exists and `load_metadata` returns metadata with exactly the fields
`create_session` returned. -/
theorem c3_create_session_amended (st : RepoState) (now : String)
    (cands : List String) (md : SessionMetadata) (st2 : RepoState)
    (hnorm : ∀ id ∈ cands, normalize_session_id (some id) = some id)
    (hcreate : create_session st now cands = some (md, st2)) :
    md.session_id ∈ cands ∧
    dirExists st md.session_id = false ∧
    md.environment = DEFAULT_ENVIRONMENT ∧
    md.ui_state = DEFAULT_UI_STATE ∧
    md.created_at = now ∧ md.updated_at = now ∧
    session_exists st2 (some md.session_id) = true ∧
    (∃ st3, load_metadata st2 (some md.session_id) = some (md, st3)) := by
  induction cands with
  | nil => simp [create_session] at hcreate
  | cons id rest ih =>
      by_cases hex : dirExists st id = true
      · rw [create_session, if_pos hex] at hcreate
        have hrest := ih (fun i hi => hnorm i (List.mem_cons_of_mem id hi)) hcreate
        exact ⟨List.mem_cons_of_mem id hrest.1, hrest.2⟩
      · have hex2 : dirExists st id = false := by
          cases h2 : dirExists st id
          · rfl
          · exact absurd h2 hex
        have hget0 : dictGet st.dirs id = none := isSome_false_eq_none hex2
        rw [create_session, if_neg (by simp [hex2])] at hcreate
        simp only [Option.some.injEq, Prod.mk.injEq] at hcreate
        obtain ⟨hmd, hst2⟩ := hcreate
        subst hmd
        have hid : (SessionMetadata.new id now).session_id = id := rfl
        have hnid : normalize_session_id (some id) = some id :=
          hnorm id (List.mem_cons_self id rest)
        have hg1 : dictGet (RepoState.mk (st.dirs ++ [(id, SessionDirState.mk none false false)])).dirs id
            = some (SessionDirState.mk none false false) := by
          dsimp only
          rw [dictGet_append_of_none _ _ hget0, dictGet_singleton]
        have hg2 : dictGet (write_metadata
              (RepoState.mk (st.dirs ++ [(id, SessionDirState.mk none false false)]))
              (SessionMetadata.new id now)).dirs id
            = some (SessionDirState.mk (some (SessionMetadata.new id now)) false false) :=
          dictGet_write_metadata_self _ _ (SessionDirState.mk none false false) hg1
        have hg3 : dictGet st2.dirs id
            = some (SessionDirState.mk (some (SessionMetadata.new id now)) true true) := by
          rw [← hst2]
          exact dictGet_storage_home_self _ _
            (SessionDirState.mk (some (SessionMetadata.new id now)) false false) hg2
        refine ⟨List.mem_cons_self id rest, hex2, rfl, rfl, rfl, rfl, ?_, ?_⟩
        · show session_exists st2 (some id) = true
          simp only [session_exists, hnid, hg3]
          rfl
        · refine ⟨storage_home st2 id, ?_⟩
          show load_metadata st2 (some id) = some (SessionMetadata.new id now, storage_home st2 id)
          simp only [load_metadata, hnid, hg3]
          rfl

/-! ## Update/load round trip used by C7 and C9 -/

/-- The metadata that `update_metadata` persists: exactly the supplied
fields are merged (a supplied ui state through the allow-list filter) and
`updated_at` is bumped. -/
def merged_metadata (md : SessionMetadata) (eopt uopt : Option (List (String × PyVal))) (now : String) : SessionMetadata :=
  { md with environment := eopt.getD md.environment, ui_state := (uopt.map filtered_ui_state).getD md.ui_state, updated_at := now }

/-- Round trip through `update_metadata` followed by `load_metadata` on a
well-formed store: the written metadata is `merged_metadata`, and it is what
a reload returns. -/
lemma update_then_load (st : RepoState) (nid : String) (d : SessionDirState)
    (md : SessionMetadata) (eopt uopt : Option (List (String × PyVal))) (now : String)
    (h1 : normalize_session_id (some nid) = some nid)
    (h2 : dictGet st.dirs nid = some d)
    (h3 : d.meta = some md)
    (h4 : md.session_id = nid)
    (h5 : eopt.isSome = true ∨ uopt.isSome = true) :
    ∃ md2 st2 st3,
      update_metadata st (some nid) eopt uopt now = some (md2, st2) ∧
      load_metadata st2 (some nid) = some (md2, st3) ∧
      md2.environment = eopt.getD md.environment ∧
      md2.ui_state = (uopt.map filtered_ui_state).getD md.ui_state ∧
      md2.updated_at = now ∧
      md2.created_at = md.created_at ∧
      md2.session_id = nid := by
  have hload : load_metadata st (some nid) = some (md, storage_home st md.session_id) := by
    simp only [load_metadata, h1, h2, h3]
  have hd1 : dictGet (storage_home st nid).dirs nid
      = some { d with contract_state := true, run_state := true } :=
    dictGet_storage_home_self st nid d h2
  refine ⟨merged_metadata md eopt uopt now,
    write_metadata (storage_home st md.session_id) (merged_metadata md eopt uopt now),
    ?_, ?_, ?_, rfl, rfl, rfl, rfl, h4⟩
  · exact storage_home
      (write_metadata (storage_home st md.session_id) (merged_metadata md eopt uopt now)) nid
  · rcases eopt with _ | e <;> rcases uopt with _ | u
    · simp at h5
    · simp only [update_metadata, hload]
      rfl
    · simp only [update_metadata, hload]
      rfl
    · simp only [update_metadata, hload]
      rfl
  · have h4m : (merged_metadata md eopt uopt now).session_id = nid := h4
    have h2w : dictGet (storage_home st md.session_id).dirs
        (merged_metadata md eopt uopt now).session_id
        = some { d with contract_state := true, run_state := true } := by
      show dictGet (storage_home st md.session_id).dirs md.session_id = _
      rw [h4]
      exact hd1
    have hw := dictGet_write_metadata_self (storage_home st md.session_id)
      (merged_metadata md eopt uopt now)
      { d with contract_state := true, run_state := true } h2w
    have hwnid : dictGet (write_metadata (storage_home st md.session_id)
        (merged_metadata md eopt uopt now)).dirs nid
        = some (SessionDirState.mk (some (merged_metadata md eopt uopt now)) true true) := by
      rw [show nid = (merged_metadata md eopt uopt now).session_id from h4.symm]
      exact hw
    simp only [load_metadata, h1, hwnid, h4m]

/-! ## C7 -/

/-- Claim C7 (confirmed): an update that does not supply `ui_state` leaves
the stored ui state identical on reload (updating only the environment never
drops or alters it); when `ui_state` is supplied, a key outside the
`SESSION_UI_FIELDS` allow-list is absent from the metadata a subsequent load
returns. -/
theorem c7_update_preserves_and_filters_ui_state
    (st : RepoState) (nid : String) (d : SessionDirState) (md : SessionMetadata)
    (env u : List (String × PyVal)) (eopt : Option (List (String × PyVal)))
    (now k : String)
    (h1 : normalize_session_id (some nid) = some nid)
    (h2 : dictGet st.dirs nid = some d)
    (h3 : d.meta = some md)
    (h4 : md.session_id = nid) :
    (∃ md2 st2 st3,
       update_metadata st (some nid) (some env) none now = some (md2, st2) ∧
       load_metadata st2 (some nid) = some (md2, st3) ∧
       md2.ui_state = md.ui_state)
    ∧ (k ∉ SESSION_UI_FIELDS →
       ∃ md2 st2 st3,
         update_metadata st (some nid) eopt (some u) now = some (md2, st2) ∧
         load_metadata st2 (some nid) = some (md2, st3) ∧
         dictGet md2.ui_state k = none) := by
  constructor
  · obtain ⟨md2, st2, st3, hupd, hload, _, hui, _⟩ :=
      update_then_load st nid d md (some env) none now h1 h2 h3 h4 (Or.inl rfl)
    exact ⟨md2, st2, st3, hupd, hload, hui⟩
  · intro hk
    obtain ⟨md2, st2, st3, hupd, hload, _, hui, _⟩ :=
      update_then_load st nid d md eopt (some u) now h1 h2 h3 h4 (Or.inr rfl)
    refine ⟨md2, st2, st3, hupd, hload, ?_⟩
    rw [hui]
    show dictGet (filtered_ui_state u) k = none
    rw [filtered_ui_state,
      dictGet_map_keys SESSION_UI_FIELDS
        (fun key => pyGet u key (pyGet DEFAULT_UI_STATE key PyVal.pnone)) k,
      if_neg hk]

/-- Claim C7 witness at a concrete store: one session with default metadata;
an environment-only update keeps the ui state, and an update supplying only
an unrecognized ui key drops that key. -/
theorem c7_update_preserves_and_filters_ui_state_witness :
    (∃ md2 st2 st3,
       update_metadata
         (RepoState.mk [("0123456789abcdef0123456789abcdef",
            SessionDirState.mk
              (some (SessionMetadata.new "0123456789abcdef0123456789abcdef" "t0")) true true)])
         (some "0123456789abcdef0123456789abcdef")
         (some [("signer", PyVal.pstr "tester")]) none "t1" = some (md2, st2) ∧
       load_metadata st2 (some "0123456789abcdef0123456789abcdef") = some (md2, st3) ∧
       md2.ui_state = (SessionMetadata.new "0123456789abcdef0123456789abcdef" "t0").ui_state)
    ∧ ((("unrecognized_key" : String) ∉ SESSION_UI_FIELDS) →
       ∃ md2 st2 st3,
         update_metadata
           (RepoState.mk [("0123456789abcdef0123456789abcdef",
              SessionDirState.mk
                (some (SessionMetadata.new "0123456789abcdef0123456789abcdef" "t0")) true true)])
           (some "0123456789abcdef0123456789abcdef")
           none (some [("unrecognized_key", PyVal.pstr "x")]) "t1" = some (md2, st2) ∧
         load_metadata st2 (some "0123456789abcdef0123456789abcdef") = some (md2, st3) ∧
         dictGet md2.ui_state "unrecognized_key" = none) :=
  c7_update_preserves_and_filters_ui_state
    (RepoState.mk [("0123456789abcdef0123456789abcdef",
       SessionDirState.mk
         (some (SessionMetadata.new "0123456789abcdef0123456789abcdef" "t0")) true true)])
    "0123456789abcdef0123456789abcdef"
    (SessionDirState.mk
      (some (SessionMetadata.new "0123456789abcdef0123456789abcdef" "t0")) true true)
    (SessionMetadata.new "0123456789abcdef0123456789abcdef" "t0")
    [("signer", PyVal.pstr "tester")] [("unrecognized_key", PyVal.pstr "x")] none
    "t1" "unrecognized_key" (by decide) rfl rfl rfl

/-! ## C9 -/

/-- Claim C9 (confirmed): whenever `ui_state` is supplied to an update, the
stored ui state afterwards has exactly the allow-listed keys in allow-list
order, and every recognized key omitted from the supplied mapping is reset
to its default value, discarding whatever the store previously held. -/
theorem c9_supplied_ui_state_resets_omitted_keys
    (st : RepoState) (nid : String) (d : SessionDirState) (md : SessionMetadata)
    (u : List (String × PyVal)) (eopt : Option (List (String × PyVal))) (now : String)
    (h1 : normalize_session_id (some nid) = some nid)
    (h2 : dictGet st.dirs nid = some d)
    (h3 : d.meta = some md)
    (h4 : md.session_id = nid) :
    ∃ md2 st2 st3,
      update_metadata st (some nid) eopt (some u) now = some (md2, st2) ∧
      load_metadata st2 (some nid) = some (md2, st3) ∧
      md2.ui_state.map Prod.fst = SESSION_UI_FIELDS ∧
      (∀ k ∈ SESSION_UI_FIELDS, dictGet u k = none →
        dictGet md2.ui_state k = some (pyGet DEFAULT_UI_STATE k PyVal.pnone)) := by
  obtain ⟨md2, st2, st3, hupd, hload, _, hui, _⟩ :=
    update_then_load st nid d md eopt (some u) now h1 h2 h3 h4 (Or.inr rfl)
  refine ⟨md2, st2, st3, hupd, hload, ?_, ?_⟩
  · rw [hui]
    show (filtered_ui_state u).map Prod.fst = SESSION_UI_FIELDS
    rw [filtered_ui_state, List.map_map]
    exact List.map_id SESSION_UI_FIELDS
  · intro k hk hnone
    rw [hui]
    show dictGet (filtered_ui_state u) k = _
    rw [filtered_ui_state,
      dictGet_map_keys SESSION_UI_FIELDS
        (fun key => pyGet u key (pyGet DEFAULT_UI_STATE key PyVal.pnone)) k,
      if_pos hk]
    rw [show pyGet u k (pyGet DEFAULT_UI_STATE k PyVal.pnone)
        = pyGet DEFAULT_UI_STATE k PyVal.pnone from by rw [pyGet, hnone]]

/-- Claim C9 witness: supplying a ui state that only sets `contract_name`
yields a stored ui state with exactly the allow-listed keys, and the omitted
recognized key `code_editor` comes back as its default. -/
theorem c9_supplied_ui_state_resets_omitted_keys_witness :
    ∃ md2 st2 st3,
      update_metadata
        (RepoState.mk [("0123456789abcdef0123456789abcdef",
           SessionDirState.mk
             (some (SessionMetadata.new "0123456789abcdef0123456789abcdef" "t0")) true true)])
        (some "0123456789abcdef0123456789abcdef")
        none (some [("contract_name", PyVal.pstr "con_other")]) "t1" = some (md2, st2) ∧
      load_metadata st2 (some "0123456789abcdef0123456789abcdef") = some (md2, st3) ∧
      md2.ui_state.map Prod.fst = SESSION_UI_FIELDS ∧
      (∀ k ∈ SESSION_UI_FIELDS, dictGet [("contract_name", PyVal.pstr "con_other")] k = none →
        dictGet md2.ui_state k = some (pyGet DEFAULT_UI_STATE k PyVal.pnone)) :=
  c9_supplied_ui_state_resets_omitted_keys
    (RepoState.mk [("0123456789abcdef0123456789abcdef",
       SessionDirState.mk
         (some (SessionMetadata.new "0123456789abcdef0123456789abcdef" "t0")) true true)])
    "0123456789abcdef0123456789abcdef"
    (SessionDirState.mk
      (some (SessionMetadata.new "0123456789abcdef0123456789abcdef" "t0")) true true)
    (SessionMetadata.new "0123456789abcdef0123456789abcdef" "t0")
    [("contract_name", PyVal.pstr "con_other")] none "t1"
    (by decide) rfl rfl rfl

/-- Claim C3 witness: creating a session in an empty store with one fresh
uuid candidate yields exactly the stated fields, existence, and reload. -/
theorem c3_create_session_amended_witness :
    (SessionMetadata.new "0123456789abcdef0123456789abcdef" "t0").session_id
        ∈ ["0123456789abcdef0123456789abcdef"] ∧
    dirExists (RepoState.mk [])
        (SessionMetadata.new "0123456789abcdef0123456789abcdef" "t0").session_id = false ∧
    (SessionMetadata.new "0123456789abcdef0123456789abcdef" "t0").environment
        = DEFAULT_ENVIRONMENT ∧
    (SessionMetadata.new "0123456789abcdef0123456789abcdef" "t0").ui_state
        = DEFAULT_UI_STATE ∧
    (SessionMetadata.new "0123456789abcdef0123456789abcdef" "t0").created_at = "t0" ∧
    (SessionMetadata.new "0123456789abcdef0123456789abcdef" "t0").updated_at = "t0" ∧
    session_exists
        (RepoState.mk [("0123456789abcdef0123456789abcdef",
          SessionDirState.mk
            (some (SessionMetadata.new "0123456789abcdef0123456789abcdef" "t0")) true true)])
        (some (SessionMetadata.new "0123456789abcdef0123456789abcdef" "t0").session_id)
      = true ∧
    (∃ st3, load_metadata
        (RepoState.mk [("0123456789abcdef0123456789abcdef",
          SessionDirState.mk
            (some (SessionMetadata.new "0123456789abcdef0123456789abcdef" "t0")) true true)])
        (some (SessionMetadata.new "0123456789abcdef0123456789abcdef" "t0").session_id)
      = some (SessionMetadata.new "0123456789abcdef0123456789abcdef" "t0", st3)) :=
  c3_create_session_amended (RepoState.mk []) "t0"
    ["0123456789abcdef0123456789abcdef"]
    (SessionMetadata.new "0123456789abcdef0123456789abcdef" "t0")
    (RepoState.mk [("0123456789abcdef0123456789abcdef",
      SessionDirState.mk
        (some (SessionMetadata.new "0123456789abcdef0123456789abcdef" "t0")) true true)])
    (by decide) (by decide)

/-! ## C6 -/

/-- Claim C6 (confirmed): in the worker receive loop, the reserved
`__shutdown__` command always produces the response `(ok, nil)` and is the
only command after which the loop exits; a command naming no operation on
the session service produces an error response, and the loop then continues
with the remaining messages rather than crashing. -/
theorem c6_worker_loop_shutdown_and_unknown (behavior : ServiceBehavior) :
    (∀ args kwargs, workerStep behavior (.rpc "__shutdown__" args kwargs) = (.ok none, true))
    ∧ (∀ cmd args kwargs, cmd ≠ "__shutdown__" →
        (workerStep behavior (.rpc cmd args kwargs)).2 = false)
    ∧ (workerStep behavior .malformed).2 = false
    ∧ (∀ cmd args kwargs, cmd ≠ "__shutdown__" →
        contractingServiceMethods.contains cmd = false →
        workerStep behavior (.rpc cmd args kwargs)
          = (.err (.ptuple2 "AttributeError" ("Unknown command " ++ pyRepr cmd)), false))
    ∧ (∀ cmd args kwargs rest, cmd ≠ "__shutdown__" →
        contractingServiceMethods.contains cmd = false →
        workerLoop behavior (.rpc cmd args kwargs :: rest)
          = (.err (.ptuple2 "AttributeError" ("Unknown command " ++ pyRepr cmd))
              :: (workerLoop behavior rest).1, (workerLoop behavior rest).2)) := by
  have hstep : ∀ cmd args kwargs, cmd ≠ "__shutdown__" →
      contractingServiceMethods.contains cmd = false →
      workerStep behavior (.rpc cmd args kwargs)
        = (.err (.ptuple2 "AttributeError" ("Unknown command " ++ pyRepr cmd)), false) := by
    intro cmd args kwargs hcmd hc
    rw [workerStep, if_neg hcmd, if_neg (by rw [hc]; exact Bool.false_ne_true)]
  refine ⟨?_, ?_, rfl, hstep, ?_⟩
  · intro args kwargs
    rw [workerStep, if_pos rfl]
  · intro cmd args kwargs hcmd
    rw [workerStep, if_neg hcmd]
    by_cases hc : contractingServiceMethods.contains cmd = true
    · rw [if_pos hc]
      cases behavior cmd args kwargs <;> rfl
    · rw [if_neg hc]
  · intro cmd args kwargs rest hcmd hc
    rw [workerLoop, hstep cmd args kwargs hcmd hc]

/-- Claim C6 witness: with a trivially succeeding service behaviour,
shutdown replies `(ok, nil)` and exits, and the unknown command
`get_export_metadata` replies with an error and the loop goes on to process
the next message. -/
theorem c6_worker_loop_shutdown_and_unknown_witness :
    workerStep (fun _ _ _ => Except.ok PyVal.pnone) (.rpc "__shutdown__" [] [])
      = (.ok none, true)
    ∧ workerStep (fun _ _ _ => Except.ok PyVal.pnone) (.rpc "definitely_not_a_command" [] [])
      = (.err (.ptuple2 "AttributeError"
          ("Unknown command " ++ pyRepr "definitely_not_a_command")), false)
    ∧ workerLoop (fun _ _ _ => Except.ok PyVal.pnone)
        [.rpc "definitely_not_a_command" [] [], .rpc "__shutdown__" [] []]
      = (.err (.ptuple2 "AttributeError"
            ("Unknown command " ++ pyRepr "definitely_not_a_command"))
          :: (workerLoop (fun _ _ _ => Except.ok PyVal.pnone) [.rpc "__shutdown__" [] []]).1,
         (workerLoop (fun _ _ _ => Except.ok PyVal.pnone) [.rpc "__shutdown__" [] []]).2) :=
  ⟨(c6_worker_loop_shutdown_and_unknown (fun _ _ _ => Except.ok PyVal.pnone)).1 [] [],
   (c6_worker_loop_shutdown_and_unknown (fun _ _ _ => Except.ok PyVal.pnone)).2.2.2.1
     "definitely_not_a_command" [] [] (by decide) (by decide),
   (c6_worker_loop_shutdown_and_unknown (fun _ _ _ => Except.ok PyVal.pnone)).2.2.2.2
     "definitely_not_a_command" [] [] [.rpc "__shutdown__" [] []] (by decide) (by decide)⟩

/-! ## C4 -/

/-- Claim C4 (confirmed): on a started, non-stopped worker, if a positive
RPC timeout is configured and no response arrives within it, `invoke`
returns the typed timeout error carrying the command and the timeout and
tears the worker down — both channel endpoints closed and detached, dead
and stopped flags set, the process no longer alive, and, when it was alive,
terminated and joined with a one-second bound; if no positive timeout is
configured, `invoke` blocks until a response and delivers it however late,
and a broken channel marks the worker dead and raises the unavailable
error. -/
theorem c4_invoke_timeout_teardown_and_blocking
    (st : WorkerConnState) (cmd : String)
    (h1 : st.stopped = false) (h2 : st.lock_init = true) (h3 : st.parent_conn = true) :
    (∀ t : ℚ, 0 < t →
      invoke st .silent cmd (some t) = (.workerTimeout cmd t, handle_timeout st)
      ∧ (∀ (d : ℚ) (resp : WireResp), t < d →
          invoke st (.arrives d resp) cmd (some t) = (.workerTimeout cmd t, handle_timeout st))
      ∧ (handle_timeout st).dead = true
      ∧ (handle_timeout st).stopped = true
      ∧ (handle_timeout st).parent_conn = false
      ∧ (handle_timeout st).child_conn = false
      ∧ (handle_timeout st).alive = false
      ∧ (st.alive = true → (handle_timeout st).terminated = true
          ∧ (handle_timeout st).last_join_timeout = some 1))
    ∧ (∀ tOpt : Option ℚ, tOpt = none ∨ (∃ t, tOpt = some t ∧ t <= 0) →
        (∀ (d : ℚ) (v : Option PyVal),
          invoke st (.arrives d (.ok v)) cmd tOpt = (.result v, st))
        ∧ (∀ (d : ℚ) (payload : RawPayload),
            invoke st (.arrives d (.err payload)) cmd tOpt
              = (.remoteError (mkInvocationError cmd (RemoteExceptionPayload.from_raw payload)), st))
        ∧ invoke st .broken cmd tOpt = (.unavailable, { st with dead := true })) := by
  constructor
  · intro t ht
    refine ⟨?_, ?_, rfl, rfl, rfl, rfl, rfl, ?_⟩
    · simp only [invoke, h1, h2, h3, Bool.not_true, Bool.false_eq_true, if_false]
      rw [if_pos ht]
    · intro d resp hd
      simp only [invoke, h1, h2, h3, Bool.not_true, Bool.false_eq_true, if_false]
      rw [if_pos ht, if_neg (not_le.mpr hd)]
    · intro halive
      constructor
      · simp [handle_timeout, halive]
      · simp [handle_timeout, halive]
  · intro tOpt htOpt
    have hblock : ∀ behavior, invoke st behavior cmd tOpt
        = (match behavior with
           | .arrives _ resp =>
               match resp with
               | .ok v => (InvokeOutcome.result v, st)
               | .err payload =>
                   (.remoteError (mkInvocationError cmd (RemoteExceptionPayload.from_raw payload)), st)
           | .silent => (.hangs, st)
           | .broken => (.unavailable, { st with dead := true })) := by
      intro behavior
      rcases htOpt with hnone | ⟨t, hsome, ht⟩
      · subst hnone
        simp only [invoke, h1, h2, h3, Bool.not_true, Bool.false_eq_true, if_false]
      · subst hsome
        simp only [invoke, h1, h2, h3, Bool.not_true, Bool.false_eq_true, if_false]
        rw [if_neg (not_lt.mpr ht)]
    refine ⟨?_, ?_, ?_⟩
    · intro d v
      rw [hblock]
    · intro d payload
      rw [hblock]
    · rw [hblock]

/-- Claim C4 witness: on a freshly started worker, a 30-second timeout with
a silent channel yields the timeout error and the torn-down state, and with
no configured timeout a response arriving after 1000 seconds is still
delivered while a broken channel yields the unavailable error with the dead
flag set. -/
theorem c4_invoke_timeout_teardown_and_blocking_witness :
    invoke (WorkerConnState.mk false false true true true true false none) .silent "call"
        (some 30)
      = (.workerTimeout "call" 30,
         handle_timeout (WorkerConnState.mk false false true true true true false none))
    ∧ invoke (WorkerConnState.mk false false true true true true false none)
        (.arrives 1000 (.ok (some (PyVal.pstr "late")))) "call" none
      = (.result (some (PyVal.pstr "late")),
         WorkerConnState.mk false false true true true true false none)
    ∧ invoke (WorkerConnState.mk false false true true true true false none) .broken "call" none
      = (.unavailable, { WorkerConnState.mk false false true true true true false none with dead := true }) :=
  ⟨((c4_invoke_timeout_teardown_and_blocking
      (WorkerConnState.mk false false true true true true false none) "call" rfl rfl rfl).1
      30 (by norm_num)).1,
   (((c4_invoke_timeout_teardown_and_blocking
      (WorkerConnState.mk false false true true true true false none) "call" rfl rfl rfl).2
      none (Or.inl rfl)).1 1000 (some (PyVal.pstr "late"))),
   (((c4_invoke_timeout_teardown_and_blocking
      (WorkerConnState.mk false false true true true true false none) "call" rfl rfl rfl).2
      none (Or.inl rfl)).2.2)⟩

/-! ## Sorting lemmas for C5 -/

lemma entryLe_trans {a b c : EntrySnap} (h1 : entryLe a b = true)
    (h2 : entryLe b c = true) : entryLe a c = true := by
  simp only [entryLe, decide_eq_true_eq] at h1 h2 ⊢
  exact le_trans h1 h2

lemma entryLe_flip {a b : EntrySnap} (h : ¬ entryLe a b = true) : entryLe b a = true := by
  simp only [entryLe, decide_eq_true_eq] at h ⊢
  exact le_of_not_le h

lemma sortInsert_perm (a : EntrySnap) (l : List EntrySnap) :
    (sortInsert a l).Perm (a :: l) := by
  induction l with
  | nil => exact List.Perm.refl _
  | cons b l ih =>
      rw [sortInsert]
      by_cases h : entryLe a b = true
      · rw [if_pos h]
      · rw [if_neg h]
        exact (ih.cons b).trans (List.Perm.swap a b l)

lemma sortByLastUsed_perm (l : List EntrySnap) : (sortByLastUsed l).Perm l := by
  induction l with
  | nil => exact List.Perm.refl _
  | cons a l ih => exact (sortInsert_perm a (sortByLastUsed l)).trans (ih.cons a)

lemma pairwise_sortInsert (a : EntrySnap) (l : List EntrySnap)
    (h : List.Pairwise (fun x y => entryLe x y = true) l) :
    List.Pairwise (fun x y => entryLe x y = true) (sortInsert a l) := by
  induction l with
  | nil => simp [sortInsert]
  | cons b l ih =>
      rw [sortInsert]
      rw [List.pairwise_cons] at h
      obtain ⟨hb, hl⟩ := h
      by_cases hab : entryLe a b = true
      · refine if_pos hab ▸ List.pairwise_cons.mpr ⟨?_, List.pairwise_cons.mpr ⟨hb, hl⟩⟩
        intro x hx
        rcases List.mem_cons.mp hx with rfl | hx2
        · exact hab
        · exact entryLe_trans hab (hb x hx2)
      · refine if_neg hab ▸ List.pairwise_cons.mpr ⟨?_, ih hl⟩
        intro x hx
        rcases List.mem_cons.mp ((sortInsert_perm a l).mem_iff.mp hx) with rfl | hx2
        · exact entryLe_flip hab
        · exact hb x hx2

lemma sortByLastUsed_pairwise (l : List EntrySnap) :
    List.Pairwise (fun x y => entryLe x y = true) (sortByLastUsed l) := by
  induction l with
  | nil => exact List.Pairwise.nil
  | cons a l ih => exact pairwise_sortInsert a _ ih

lemma length_filter_not_add (p : EntrySnap → Bool) (l : List EntrySnap) :
    (l.filter (fun a => !(p a))).length + (l.filter p).length = l.length := by
  induction l with
  | nil => rfl
  | cons a l ih =>
      cases hp : p a <;> simp [List.filter_cons, hp] <;> omega

/-- The eviction branch of `trim_workers`, spelled out. -/
lemma trim_workers_main (entries : List EntrySnap) (limit : Int)
    (hlim : ¬ limit <= 0) (hsur : ¬ trim_surplus entries limit <= 0) :
    trim_workers entries limit
      = TrimResult.mk
          (entries.filter (fun e =>
            (trim_victims entries limit).all (fun v => v.session_id != e.session_id)))
          (trim_victims entries limit)
          (decide ((trim_idle entries).length < (trim_surplus entries limit).toNat)) := by
  rw [trim_workers, if_neg hlim, if_neg hsur]

/-- Every victim is an idle entry of the table. -/
lemma trim_victims_idle (entries : List EntrySnap) (limit : Int) :
    ∀ v ∈ trim_victims entries limit, v ∈ entries ∧ v.inflight = 0 := by
  intro v hv
  have hvs : v ∈ sortByLastUsed (trim_idle entries) := List.mem_of_mem_take hv
  have hvi : v ∈ trim_idle entries := (sortByLastUsed_perm (trim_idle entries)).mem_iff.mp hvs
  rw [trim_idle] at hvi
  obtain ⟨hmem, hq⟩ := List.mem_filter.mp hvi
  exact ⟨hmem, by simpa using hq⟩

/-! ## C5 -/

/-- Claim C5 (confirmed): whenever the table exceeds the configured resident
cap after inserting a new entry, the trim evicts only entries with inflight
zero, preferring the oldest `last_used` first; a busy entry is never
evicted; the capacity-exceeded warning is logged exactly when the idle
entries cannot cover the surplus, in which case the table is simply left
over the cap (the new entry having been inserted unconditionally before the
trim) instead of blocking or rejecting. -/
theorem c5_trim_evicts_oldest_idle_only (entries : List EntrySnap) (limit : Int) :
    (∀ v ∈ (trim_workers entries limit).victims, v.inflight = 0)
    ∧ (∀ v ∈ (trim_workers entries limit).victims,
        ∀ e ∈ (trim_workers entries limit).kept, e.inflight = 0 →
          v.last_used <= e.last_used)
    ∧ ((entries.map EntrySnap.session_id).Nodup →
        ∀ e ∈ entries, 0 < e.inflight → e ∈ (trim_workers entries limit).kept)
    ∧ (0 < limit → limit < (entries.length : Int) →
        ((trim_workers entries limit).logged = true
          ↔ (trim_idle entries).length < (trim_surplus entries limit).toNat))
    ∧ ((entries.map EntrySnap.session_id).Nodup →
        (trim_workers entries limit).logged = true →
        limit < ((trim_workers entries limit).kept.length : Int))
    ∧ (∀ newEntry : EntrySnap,
        get_or_create_trim entries newEntry limit
          = trim_workers (entries ++ [newEntry]) limit) := by
  by_cases hlim : limit <= 0
  · have htriv : trim_workers entries limit = TrimResult.mk entries [] false := by
      rw [trim_workers, if_pos hlim]
    rw [htriv]
    refine ⟨by simp, by simp, ?_, ?_, by simp, fun _ => rfl⟩
    · intro _ e he _
      simpa using he
    · intro h0 _
      exact absurd h0 (not_lt.mpr hlim)
  · by_cases hsur : trim_surplus entries limit <= 0
    · have htriv : trim_workers entries limit = TrimResult.mk entries [] false := by
        rw [trim_workers, if_neg hlim, if_pos hsur]
      rw [htriv]
      refine ⟨by simp, by simp, ?_, ?_, by simp, fun _ => rfl⟩
      · intro _ e he _
        simpa using he
      · intro _ hlen
        rw [trim_surplus] at hsur
        exact absurd hsur (by omega)
    · have hmain := trim_workers_main entries limit hlim hsur
      have hperm := sortByLastUsed_perm (trim_idle entries)
      have hvic0 : ∀ v ∈ trim_victims entries limit, v.inflight = 0 :=
        fun v hv => (trim_victims_idle entries limit v hv).2
      refine ⟨?_, ?_, ?_, ?_, ?_, fun _ => rfl⟩
      · rw [hmain]
        exact hvic0
      · rw [hmain]
        intro v hv e he he0
        obtain ⟨hee, hall⟩ := List.mem_filter.mp he
        have hne : ∀ v2 ∈ trim_victims entries limit, v2.session_id ≠ e.session_id :=
          fun v2 hv2 => bne_iff_ne.mp (List.all_eq_true.mp hall v2 hv2)
        have hei : e ∈ sortByLastUsed (trim_idle entries) :=
          hperm.mem_iff.mpr (List.mem_filter.mpr ⟨hee, by simpa using he0⟩)
        have henv : e ∉ trim_victims entries limit := fun hev => (hne e hev) rfl
        have hed : e ∈ (sortByLastUsed (trim_idle entries)).drop
            (trim_surplus entries limit).toNat := by
          have hsplit : e ∈ (sortByLastUsed (trim_idle entries)).take (trim_surplus entries limit).toNat
              ++ (sortByLastUsed (trim_idle entries)).drop (trim_surplus entries limit).toNat := by
            rw [List.take_append_drop]
            exact hei
          rcases List.mem_append.mp hsplit with h1 | h2
          · exact absurd h1 henv
          · exact h2
        have hPW2 : List.Pairwise (fun x y => entryLe x y = true)
            ((sortByLastUsed (trim_idle entries)).take (trim_surplus entries limit).toNat
              ++ (sortByLastUsed (trim_idle entries)).drop (trim_surplus entries limit).toNat) := by
          rw [List.take_append_drop]
          exact sortByLastUsed_pairwise (trim_idle entries)
        have hcross := (List.pairwise_append.mp hPW2).2.2 v hv e hed
        simpa [entryLe, decide_eq_true_eq] using hcross
      · intro hnodup e he hbusy
        rw [hmain]
        refine List.mem_filter.mpr ⟨he, List.all_eq_true.mpr ?_⟩
        intro v hv
        refine bne_iff_ne.mpr ?_
        intro hsid
        have hveq : v = e :=
          List.inj_on_of_nodup_map hnodup (trim_victims_idle entries limit v hv).1 he hsid
        have hv0 := hvic0 v hv
        rw [hveq] at hv0
        omega
      · intro _ _
        rw [hmain]
        rw [show (TrimResult.mk _ (trim_victims entries limit) (decide ((trim_idle entries).length < (trim_surplus entries limit).toNat))).logged = decide ((trim_idle entries).length < (trim_surplus entries limit).toNat) from rfl]
        rw [decide_eq_true_eq]
      · intro hnodup hlog
        rw [hmain] at hlog ⊢
        have hidlt : (trim_idle entries).length < (trim_surplus entries limit).toNat :=
          of_decide_eq_true hlog
        have hsortlen : (sortByLastUsed (trim_idle entries)).length = (trim_idle entries).length :=
          hperm.length_eq
        have hvicall : trim_victims entries limit = sortByLastUsed (trim_idle entries) := by
          rw [trim_victims]
          exact List.take_of_length_le (by omega)
        have hkept2 : entries.filter (fun e =>
              (trim_victims entries limit).all (fun v => v.session_id != e.session_id))
            = entries.filter (fun e => !(e.inflight == 0)) := by
          refine List.filter_congr ?_
          intro e he
          by_cases he0 : e.inflight = 0
          · have hei : e ∈ trim_victims entries limit := by
              rw [hvicall]
              exact hperm.mem_iff.mpr (List.mem_filter.mpr ⟨he, by simpa using he0⟩)
            have hallfalse : ((trim_victims entries limit).all
                (fun v => v.session_id != e.session_id)) = false := by
              cases hall : (trim_victims entries limit).all (fun v => v.session_id != e.session_id)
              · rfl
              · exact absurd rfl (bne_iff_ne.mp (List.all_eq_true.mp hall e hei))
            rw [hallfalse, he0]
            rfl
          · have halltrue : ((trim_victims entries limit).all
                (fun v => v.session_id != e.session_id)) = true := by
              refine List.all_eq_true.mpr ?_
              intro v hv
              refine bne_iff_ne.mpr ?_
              intro hsid
              have hveq : v = e :=
                List.inj_on_of_nodup_map hnodup (trim_victims_idle entries limit v hv).1 he hsid
              have hv0 := hvic0 v hv
              rw [hveq] at hv0
              exact he0 hv0
            rw [halltrue]
            have : (e.inflight == 0) = false := by
              simpa using he0
            rw [this]
            rfl
        have hlens := length_filter_not_add (fun e => e.inflight == 0) entries
        have hkl : ((trim_workers entries limit).kept.length : Int)
            = ((entries.filter (fun e => !(e.inflight == 0))).length : Int) := by
          rw [hmain]
          rw [show (TrimResult.mk (entries.filter (fun e => (trim_victims entries limit).all (fun v => v.session_id != e.session_id))) _ _).kept = entries.filter (fun e => (trim_victims entries limit).all (fun v => v.session_id != e.session_id)) from rfl]
          rw [hkept2]
        show limit < ((TrimResult.mk (entries.filter (fun e => (trim_victims entries limit).all (fun v => v.session_id != e.session_id))) _ _).kept.length : Int)
        rw [show (TrimResult.mk (entries.filter (fun e => (trim_victims entries limit).all (fun v => v.session_id != e.session_id))) _ _).kept = entries.filter (fun e => (trim_victims entries limit).all (fun v => v.session_id != e.session_id)) from rfl]
        rw [hkept2]
        rw [trim_idle] at hidlt
        rw [trim_surplus] at hidlt
        omega

/-- Claim C5 witness: with two idle entries and a cap of one, the older
entry is evicted before the newer one; with one busy and one idle entry and
a cap of one, the busy entry is never evicted; and the warning predicate is
exact for a concrete over-capacity table. -/
theorem c5_trim_evicts_oldest_idle_only_witness :
    (EntrySnap.mk "a" 0 1).inflight = 0
    ∧ (EntrySnap.mk "a" 0 1).last_used <= (EntrySnap.mk "b" 0 2).last_used
    ∧ EntrySnap.mk "b" 5 2
        ∈ (trim_workers [EntrySnap.mk "a" 0 1, EntrySnap.mk "b" 5 2] 1).kept
    ∧ ((trim_workers [EntrySnap.mk "a" 0 1, EntrySnap.mk "b" 5 2] 1).logged = true
        ↔ (trim_idle [EntrySnap.mk "a" 0 1, EntrySnap.mk "b" 5 2]).length
            < (trim_surplus [EntrySnap.mk "a" 0 1, EntrySnap.mk "b" 5 2] 1).toNat) :=
  ⟨(c5_trim_evicts_oldest_idle_only [EntrySnap.mk "a" 0 1, EntrySnap.mk "b" 0 2] 1).1
      (EntrySnap.mk "a" 0 1) (by decide),
   (c5_trim_evicts_oldest_idle_only [EntrySnap.mk "a" 0 1, EntrySnap.mk "b" 0 2] 1).2.1
      (EntrySnap.mk "a" 0 1) (by decide) (EntrySnap.mk "b" 0 2) (by decide) (by decide),
   (c5_trim_evicts_oldest_idle_only [EntrySnap.mk "a" 0 1, EntrySnap.mk "b" 5 2] 1).2.2.1
      (by decide) (EntrySnap.mk "b" 5 2) (by decide) (by decide),
   (c5_trim_evicts_oldest_idle_only [EntrySnap.mk "a" 0 1, EntrySnap.mk "b" 5 2] 1).2.2.2.1
      (by decide) (by decide)⟩

/-! ## Character and parsing lemmas for C10 -/

lemma startsWith_subset {p l : List Char} (h : listStartsWith p l = true) :
    ∀ x ∈ p, x ∈ l := by
  induction p generalizing l with
  | nil =>
      intro x hx
      simp at hx
  | cons a p ih =>
      cases l with
      | nil => simp [listStartsWith] at h
      | cons c cs =>
          rw [listStartsWith, Bool.and_eq_true] at h
          obtain ⟨h1, h2⟩ := h
          have hac : a = c := of_decide_eq_true h1
          intro x hx
          rcases List.mem_cons.mp hx with rfl | hx2
          · rw [hac]
            exact List.mem_cons_self c cs
          · exact List.mem_cons_of_mem c (ih h2 x hx2)

lemma removeOccFuel_eq_self (pat : List Char) (c0 : Char) (hc : c0 ∈ pat) :
    ∀ (fuel : Nat) (l : List Char), (∀ x ∈ l, x ≠ c0) → removeOccFuel pat fuel l = l := by
  intro fuel
  induction fuel with
  | zero =>
      intro l _
      cases l <;> rfl
  | succ fuel ih =>
      intro l h
      cases l with
      | nil => rfl
      | cons c rest =>
          rw [removeOccFuel]
          have hcond : (!pat.isEmpty && listStartsWith pat (c :: rest)) = false := by
            cases hsw : listStartsWith pat (c :: rest)
            · simp
            · exact absurd rfl (h c0 (startsWith_subset hsw c0 hc))
          rw [if_neg (by rw [hcond]; exact Bool.false_ne_true)]
          rw [ih rest (fun x hx => h x (List.mem_cons_of_mem c hx))]

lemma removeOcc_eq_self (pat l : List Char) (c0 : Char) (hc : c0 ∈ pat)
    (h : ∀ x ∈ l, x ≠ c0) : removeOcc pat l = l :=
  removeOccFuel_eq_self pat c0 hc l.length l h

lemma dropWhile_eq_self_of_false {p : Char → Bool} {l : List Char}
    (h : ∀ x ∈ l, p x = false) : l.dropWhile p = l := by
  cases l with
  | nil => rfl
  | cons c cs =>
      rw [List.dropWhile_cons,
        if_neg (by rw [h c (List.mem_cons_self c cs)]; exact Bool.false_ne_true)]

lemma stripEnds_eq_self {p : Char → Bool} {l : List Char} (h : ∀ x ∈ l, p x = false) :
    stripEnds p l = l := by
  rw [stripEnds, dropWhile_eq_self_of_false h,
    dropWhile_eq_self_of_false (fun x hx => h x (List.mem_reverse.mp hx)),
    List.reverse_reverse]

lemma hex_toNat_ranges {c : Char} (h : isHexDigit c = true) :
    (48 <= c.toNat ∧ c.toNat <= 57) ∨ (97 <= c.toNat ∧ c.toNat <= 102)
      ∨ (65 <= c.toNat ∧ c.toNat <= 70) := by
  simp only [isHexDigit, Bool.or_eq_true, Bool.and_eq_true, decide_eq_true_eq] at h
  tauto

lemma hex_ne {c : Char} (h : isHexDigit c = true) {c0 : Char}
    (h0 : ¬ ((48 <= c0.toNat ∧ c0.toNat <= 57) ∨ (97 <= c0.toNat ∧ c0.toNat <= 102)
      ∨ (65 <= c0.toNat ∧ c0.toNat <= 70))) : c ≠ c0 := by
  intro he
  rw [he] at h
  exact h0 (hex_toNat_ranges h)

lemma hex_not_ws {c : Char} (h : isHexDigit c = true) : isPyWs c = false := by
  cases hw : isPyWs c
  · rfl
  · exfalso
    simp only [isPyWs, Bool.or_eq_true, Bool.and_eq_true, decide_eq_true_eq] at hw
    rcases hex_toNat_ranges h with ⟨h1, h2⟩ | ⟨h1, h2⟩ | ⟨h1, h2⟩ <;> omega

lemma hex_not_brace {c : Char} (h : isHexDigit c = true) : isBraceChar c = false := by
  have h123 : c.toNat ≠ 123 := by
    rcases hex_toNat_ranges h with ⟨h1, h2⟩ | ⟨h1, h2⟩ | ⟨h1, h2⟩ <;> omega
  have h125 : c.toNat ≠ 125 := by
    rcases hex_toNat_ranges h with ⟨h1, h2⟩ | ⟨h1, h2⟩ | ⟨h1, h2⟩ <;> omega
  simp [isBraceChar, h123, h125]

lemma hexVal_le {c : Char} (h : isHexDigit c = true) : hexVal c <= 15 := by
  have hr := hex_toNat_ranges h
  rw [hexVal]
  split_ifs with h1 h2 <;> omega

lemma hexDigitsRest_all_hex :
    ∀ (l : List Char), (∀ x ∈ l, isHexDigit x = true) → ∀ acc : Nat,
      ∃ v, hexDigitsRest l acc = some v ∧ v < (acc + 1) * 16 ^ l.length := by
  intro l
  induction l with
  | nil =>
      intro _ acc
      exact ⟨acc, rfl, by simp⟩
  | cons c rest ih =>
      intro h acc
      have hc := h c (List.mem_cons_self c rest)
      have hstep : hexDigitsRest (c :: rest) acc = hexDigitsRest rest (acc * 16 + hexVal c) := by
        cases rest with
        | nil =>
            simp only [hexDigitsRest]
            rw [if_neg (hex_ne hc (by decide)), if_pos hc]
        | cons c2 rest2 =>
            simp only [hexDigitsRest]
            rw [if_neg (hex_ne hc (by decide)), if_pos hc]
      rw [hstep]
      obtain ⟨v, hv, hbound⟩ :=
        ih (fun x hx => h x (List.mem_cons_of_mem c hx)) (acc * 16 + hexVal c)
      refine ⟨v, hv, ?_⟩
      have h15 := hexVal_le hc
      calc v < (acc * 16 + hexVal c + 1) * 16 ^ rest.length := hbound
        _ <= ((acc + 1) * 16) * 16 ^ rest.length :=
            Nat.mul_le_mul (by omega) (le_refl _)
        _ = (acc + 1) * 16 ^ (c :: rest).length := by
            rw [List.length_cons]
            ring

lemma hexDigitsStart_all_hex (l : List Char) (hne : l ≠ [])
    (h : ∀ x ∈ l, isHexDigit x = true) :
    ∃ v, hexDigitsStart l = some v ∧ v < 16 ^ l.length := by
  cases l with
  | nil => exact absurd rfl hne
  | cons c rest =>
      have hc := h c (List.mem_cons_self c rest)
      simp only [hexDigitsStart]
      rw [if_pos hc]
      obtain ⟨v, hv, hb⟩ :=
        hexDigitsRest_all_hex rest (fun x hx => h x (List.mem_cons_of_mem c hx)) (hexVal c)
      refine ⟨v, hv, ?_⟩
      have h15 := hexVal_le hc
      calc v < (hexVal c + 1) * 16 ^ rest.length := hb
        _ <= 16 * 16 ^ rest.length := Nat.mul_le_mul (by omega) (le_refl _)
        _ = 16 ^ (c :: rest).length := by
            rw [List.length_cons]
            ring

lemma pyHexMagnitude_all_hex (l : List Char) (hne : l ≠ [])
    (h : ∀ x ∈ l, isHexDigit x = true) :
    ∃ v, pyHexMagnitude l = some v ∧ v < 16 ^ l.length := by
  cases l with
  | nil => exact absurd rfl hne
  | cons c rest =>
      cases rest with
      | nil =>
          have heq : pyHexMagnitude [c] = hexDigitsStart [c] := rfl
          rw [heq]
          exact hexDigitsStart_all_hex [c] (by simp) h
      | cons x rest2 =>
          have hx := h x (List.mem_cons_of_mem c (List.mem_cons_self x rest2))
          have h1 : x ≠ 'x' := hex_ne hx (by decide)
          have h2 : x ≠ 'X' := hex_ne hx (by decide)
          have hcond : (c = '0' && (x = 'x' || x = 'X')) = false := by
            simp [h1, h2]
          have heq : pyHexMagnitude (c :: x :: rest2) = hexDigitsStart (c :: x :: rest2) := by
            simp only [pyHexMagnitude]
            rw [if_neg (by rw [hcond]; exact Bool.false_ne_true)]
          rw [heq]
          exact hexDigitsStart_all_hex _ (by simp) h

lemma pyIntBase16_all_hex (l : List Char) (hne : l ≠ [])
    (h : ∀ x ∈ l, isHexDigit x = true) :
    ∃ v : Nat, pyIntBase16 l = some ((v : Int)) ∧ v < 16 ^ l.length := by
  have hstrip : stripEnds isPyWs l = l :=
    stripEnds_eq_self (fun x hx => hex_not_ws (h x hx))
  cases l with
  | nil => exact absurd rfl hne
  | cons c rest =>
      have hc := h c (List.mem_cons_self c rest)
      have hplus : c ≠ '+' := hex_ne hc (by decide)
      have hminus : c ≠ '-' := hex_ne hc (by decide)
      have heq : pyIntBase16 (c :: rest)
          = (pyHexMagnitude (c :: rest)).map (fun n => (n : Int)) := by
        simp only [pyIntBase16, hstrip]
        rw [if_neg hplus, if_neg hminus]
      obtain ⟨v, hv, hb⟩ := pyHexMagnitude_all_hex (c :: rest) (by simp) h
      refine ⟨v, ?_, hb⟩
      rw [heq, hv]
      rfl

lemma uuidHexAccepted_all_hex (u : String) (h : ∀ x ∈ u.toList, isHexDigit x = true)
    (hlen : u.toList.length = 32) : uuidHexAccepted u = true := by
  have h1 : removeOcc ("urn:".toList) u.toList = u.toList :=
    removeOcc_eq_self _ _ ':' (by decide) (fun x hx => hex_ne (h x hx) (by decide))
  have h2 : removeOcc ("uuid:".toList) u.toList = u.toList :=
    removeOcc_eq_self _ _ ':' (by decide) (fun x hx => hex_ne (h x hx) (by decide))
  have h3 : stripEnds isBraceChar u.toList = u.toList :=
    stripEnds_eq_self (fun x hx => hex_not_brace (h x hx))
  have h4 : removeOcc ("-".toList) u.toList = u.toList :=
    removeOcc_eq_self _ _ '-' (by decide) (fun x hx => hex_ne (h x hx) (by decide))
  obtain ⟨v, hv, hb⟩ := pyIntBase16_all_hex u.toList
    (by intro hnil; rw [hnil] at hlen; simp at hlen) h
  simp only [uuidHexAccepted, uuidHexNormalized, h1, h2, h3, h4]
  rw [if_neg (not_ne_iff.mpr hlen), hv]
  rw [decide_eq_true_eq]
  constructor
  · exact Int.natCast_nonneg v
  · rw [hlen] at hb
    have h16 : (16 : Nat) ^ 32 = 2 ^ 128 := by norm_num
    rw [h16] at hb
    exact_mod_cast hb

/-! ## C10 -/

/-- Claim C10 counterexample: the 32-character string starting with `0x` is
its own normalization and is not made of 32 hexadecimal characters, yet the
validator accepts it — Python `int(s, 16)` accepts the `0x` base marker, so
the claimed only-32-hex-characters characterization of acceptance is false. -/
theorem c10_non_hex_string_accepted_counterexample :
    is_valid_session_id (some "0xaaaaaaaaaaaaaaaaaaaaaaaaaaaaaa") = true
    ∧ normalize_session_id (some "0xaaaaaaaaaaaaaaaaaaaaaaaaaaaaaa")
        = some "0xaaaaaaaaaaaaaaaaaaaaaaaaaaaaaa"
    ∧ ¬ (∀ c ∈ "0xaaaaaaaaaaaaaaaaaaaaaaaaaaaaaa".toList, isHexDigit c = true) := by
  refine ⟨by decide, by decide, by decide⟩

/-- Claim C10 as amended: the validator accepts every identifier whose
normalization is exactly 32 hexadecimal characters (the UUID version and
variant bits are coerced, never checked), and rejects `None`, the empty
string, whitespace-only strings, every identifier whose normalization does
not have exactly 32 characters, and every identifier whose uuid hex
conversion fails — after the stdlib preprocessing (urn/uuid marker, brace
and dash removal) the remaining text must be 32 characters that Python
`int(s, 16)` accepts; that parse also admits some 32-character non-hex
forms — a `0x` base marker, a leading `+`, underscores between digits —
which the validator therefore accepts too. -/
theorem c10_is_valid_session_id_amended :
    (∀ s u, normalize_session_id (some s) = some u →
       (∀ c ∈ u.toList, isHexDigit c = true) → u.toList.length = 32 →
       is_valid_session_id (some s) = true)
    ∧ is_valid_session_id none = false
    ∧ is_valid_session_id (some "") = false
    ∧ is_valid_session_id (some "   ") = false
    ∧ (∀ s u, normalize_session_id (some s) = some u → u.length ≠ 32 →
        is_valid_session_id (some s) = false)
    ∧ (∀ s u, normalize_session_id (some s) = some u →
        (uuidHexNormalized u).length ≠ 32 →
        is_valid_session_id (some s) = false)
    ∧ (∀ s u, normalize_session_id (some s) = some u →
        pyIntBase16 (uuidHexNormalized u) = none →
        is_valid_session_id (some s) = false)
    ∧ is_valid_session_id (some "0xaaaaaaaaaaaaaaaaaaaaaaaaaaaaaa") = true
    ∧ is_valid_session_id (some "+aaaaaaaaaaaaaaaaaaaaaaaaaaaaaaa") = true
    ∧ is_valid_session_id (some "aaaaaaaaaaaaaaaaaaaaaaaaaaaaaa_1") = true := by
  refine ⟨?_, by decide, by decide, by decide, ?_, ?_, ?_, by decide, by decide, by decide⟩
  · intro s u hnorm hhex hlen
    have hlen2 : u.length = 32 := hlen
    simp only [is_valid_session_id, hnorm]
    rw [if_neg (not_ne_iff.mpr hlen2)]
    exact uuidHexAccepted_all_hex u hhex hlen
  · intro s u hnorm hlen
    simp only [is_valid_session_id, hnorm]
    rw [if_pos hlen]
  · intro s u hnorm hilen
    simp only [is_valid_session_id, hnorm]
    by_cases hlen : u.length = 32
    · rw [if_neg (not_ne_iff.mpr hlen)]
      simp only [uuidHexAccepted]
      rw [if_pos hilen]
    · rw [if_pos hlen]
  · intro s u hnorm hparse
    simp only [is_valid_session_id, hnorm]
    by_cases hlen : u.length = 32
    · rw [if_neg (not_ne_iff.mpr hlen)]
      simp only [uuidHexAccepted]
      by_cases hilen : (uuidHexNormalized u).length = 32
      · rw [if_neg (not_ne_iff.mpr hilen), hparse]
      · rw [if_pos hilen]
    · rw [if_pos hlen]

/-- Claim C10 witness: a canonical 32-hex identifier is accepted, a short
normalized identifier is rejected, and a 32-character normalized identifier
whose text fails the Python `int(s, 16)` parse is rejected. -/
theorem c10_is_valid_session_id_amended_witness :
    is_valid_session_id (some "0123456789abcdef0123456789abcdef") = true
    ∧ is_valid_session_id (some "abc") = false
    ∧ is_valid_session_id (some "gggggggggggggggggggggggggggggggg") = false :=
  ⟨c10_is_valid_session_id_amended.1 "0123456789abcdef0123456789abcdef"
      "0123456789abcdef0123456789abcdef" (by decide) (by decide) (by decide),
   c10_is_valid_session_id_amended.2.2.2.2.1 "abc" "abc" (by decide) (by decide),
   c10_is_valid_session_id_amended.2.2.2.2.2.2.1
      "gggggggggggggggggggggggggggggggg" "gggggggggggggggggggggggggggggggg"
      (by decide) (by decide)⟩

end Playground
